import Mathlib

/-!
Shallow embedding of the starboard scoring and reconciliation engine of
`app/cogs/starboard/starboard_funcs.py` (Starboard-2).

The database rows (`starboards`, `messages`, `starboard_messages`,
`reactions`, `reaction_users`) become Lean structures; the per-(message,
starboard) slice of the store plus the remote mirror message become an
explicit `RState`; `handle_starboard`, `handle_trashed_message` and
`update_message` become pure state-transition functions that additionally
return the list of remote operations performed and the operator-facing log
lines dispatched during the call.  The best-effort message cache is
modelled deterministically: a fetch succeeds exactly when the message is
present in the state (the claims under study concern a single pass with no
intervening events).  `utils.safe_regex` (an external bounded-time match)
is modelled by its outcome: matched, no match, or timeout.
-/

namespace Starboard2

/-- A row of the `starboards` table, restricted to the columns read by
`handle_starboard`. -/
structure StarboardRow where
  id : Nat
  guild_id : Nat
  required : Int
  required_remove : Int
  self_star : Bool
  allow_bots : Bool
  allow_nsfw : Bool
  link_edits : Bool
  link_deletes : Bool
  star_emojis : List String
  display_emoji : String
  regex : String
  exclude_regex : String
  autoreact : Bool
  deriving Repr, DecidableEq

/-- A row of the `messages` table (the source message), restricted to the
columns read by the reconciliation functions. -/
structure MessageRow where
  id : Nat
  guild_id : Nat
  channel_id : Nat
  author_id : Nat
  is_nsfw : Bool
  forced : List Nat
  trashed : Bool
  frozen : Bool
  deriving Repr, DecidableEq

/-- A row of the `users` table for the message author (only `is_bot` is
read). -/
structure AuthorRow where
  is_bot : Bool
  deriving Repr, DecidableEq

/-- A row of the `reactions` table: a reaction id and its emoji token. -/
structure ReactionRow where
  id : Nat
  emoji : String
  deriving Repr, DecidableEq

/-- A row of the `reaction_users` table: one (reaction, user) pair. -/
structure ReactionUserRow where
  reaction_id : Nat
  user_id : Nat
  deriving Repr, DecidableEq

/-- The Python dict `reactions` built by `calculate_points`:
`reactions[int(r["id"])] = r["emoji"]` (later inserts overwrite earlier
ones, lookup of a missing key is out of the code's contract and here
yields `""`). -/
def emojiOf (reactions : List ReactionRow) (rid : Nat) : String :=
  reactions.foldl (fun d r => fun k => if k = r.id then r.emoji else d k)
    (fun _ => "") rid

/-- One step of the `for r in reaction_users` loop of `calculate_points`:
the accumulator is the `used_users` list together with the running
`points` count. -/
def calcStep (starboard : StarboardRow) (authorId : Nat)
    (reactions : List ReactionRow) (acc : List Nat × Nat)
    (r : ReactionUserRow) : List Nat × Nat :=
  if r.user_id ∈ acc.1 then acc
  else if emojiOf reactions r.reaction_id ∉ starboard.star_emojis then acc
  else if starboard.self_star = false ∧ r.user_id = authorId then acc
  else (r.user_id :: acc.1, acc.2 + 1)

/-- `calculate_points(bot, message, starboard)`: fold the dedup loop over
the `reaction_users` rows of the message. -/
def calculate_points (starboard : StarboardRow) (message : MessageRow)
    (reactions : List ReactionRow) (reactionUsers : List ReactionUserRow) :
    Nat :=
  (reactionUsers.foldl (calcStep starboard message.author_id reactions)
    ([], 0)).2

/-- A (reaction, user) pair qualifies for a point on this starboard: its
emoji token is one of the starboard's `star_emojis` and, when `self_star`
is off, the reacting user is not the message author. -/
def qualifies (starboard : StarboardRow) (authorId : Nat)
    (reactions : List ReactionRow) (r : ReactionUserRow) : Prop :=
  emojiOf reactions r.reaction_id ∈ starboard.star_emojis ∧
    ¬(starboard.self_star = false ∧ r.user_id = authorId)

instance (starboard : StarboardRow) (authorId : Nat)
    (reactions : List ReactionRow) (r : ReactionUserRow) :
    Decidable (qualifies starboard authorId reactions r) := by
  unfold qualifies; infer_instance

/-- The set of distinct users holding at least one qualifying reaction. -/
def qualifyingUsers (starboard : StarboardRow) (authorId : Nat)
    (reactions : List ReactionRow) (reactionUsers : List ReactionUserRow) :
    Finset Nat :=
  ((reactionUsers.filter
    (fun r => decide (qualifies starboard authorId reactions r))).map
      (fun r => r.user_id)).toFinset

/-- Outcome of `utils.safe_regex(string, pattern)` together with its
timeout behaviour: the external bounded-time matcher either returns a
boolean or raises `TimeoutError`. -/
inductive RegexOutcome where
  | matched
  | nomatch
  | timeout
  deriving Repr, DecidableEq

/-- The `guild_log` line dispatched by `try_regex` on a timeout. -/
def timeoutLog (pattern : String) (jump : String) : String :=
  s!"I tried to match `{pattern}` to [a message]({jump}), but it took " ++
    "too long. Try improving the efficiency of your regex. If " ++
    "you need help, feel free to join the support server."

/-- `try_regex(bot, pattern, message)`: returns `some true` on a match,
`some false` on no match, and `none` (plus a dispatched log line) when the
matcher times out. -/
def try_regex (pattern : String) (jump : String) (outcome : RegexOutcome) :
    Option Bool × List String :=
  match outcome with
  | .matched => (some true, [])
  | .timeout => (none, [timeoutLog pattern jump])
  | .nomatch => (some false, [])

/-- The fixed inputs of one `handle_starboard` call: the database rows read
up front, the deterministic outcomes of the external collaborators (message
cache, regex matcher, Discord permissions) and the id Discord would assign
to a newly sent mirror message. -/
structure Env where
  starboard : StarboardRow
  message : MessageRow
  author : AuthorRow
  reactions : List ReactionRow
  reactionUsers : List ReactionUserRow
  /-- `bot.cache.fetch_message` of the source message succeeds. -/
  sourcePresent : Bool
  /-- `message.jump_url` of the source message (used in log lines only). -/
  sourceJump : String
  /-- Outcome of matching `starboard.regex` against the source message. -/
  regexOutcome : RegexOutcome
  /-- Outcome of matching `starboard.exclude_regex` against it. -/
  excludeRegexOutcome : RegexOutcome
  /-- The bot may send messages to the starboard channel. -/
  canSend : Bool
  /-- The bot may add reactions on the starboard channel. -/
  canReact : Bool
  /-- The rendered embed description `embed_message` would produce. -/
  renderedEmbed : String
  /-- The id Discord assigns to a newly sent mirror message. -/
  nextId : Nat
  deriving Repr, DecidableEq

/-- The `add/delete/forced/frozen` flags computed by the rule chain of
`handle_starboard` (lines 376-418). -/
structure Decision where
  add : Bool
  delete : Bool
  forced : Bool
  frozen : Bool
  deriving Repr, DecidableEq

/-- The eligibility rule chain of `handle_starboard`: thresholds, bots,
link_deletes, NSFW, regex / exclude_regex (only when the live source
message resolved), frozen, forced — in source order, each later rule
overwriting the flags of the earlier ones.  Also returns the log lines
dispatched by `try_regex` timeouts along the way. -/
def evalDecision (env : Env) (points : Int) : Decision × List String :=
  let add := false
  let delete := false
  let (add, delete) :=
    if points ≥ env.starboard.required then (true, delete)
    else if points ≤ env.starboard.required_remove then (add, true)
    else (add, delete)
  let (add, delete) :=
    if (!env.starboard.allow_bots) && env.author.is_bot then (false, true)
    else (add, delete)
  let (add, delete) :=
    if env.starboard.link_deletes && !env.sourcePresent then (false, true)
    else (add, delete)
  let (add, delete) :=
    if env.message.is_nsfw && !env.starboard.allow_nsfw then (false, true)
    else (add, delete)
  let (add, delete, regexLogs) :=
    if env.sourcePresent then
      let (add, delete, logs1) :=
        if env.starboard.regex ≠ "" then
          let (res, lg) :=
            try_regex env.starboard.regex env.sourceJump env.regexOutcome
          if res = some false then (false, true, lg) else (add, delete, lg)
        else (add, delete, [])
      let (add, delete, logs2) :=
        if env.starboard.exclude_regex ≠ "" then
          let (res, lg) := try_regex env.starboard.exclude_regex
            env.sourceJump env.excludeRegexOutcome
          if res = some true then (false, true, lg) else (add, delete, lg)
        else (add, delete, [])
      (add, delete, logs1 ++ logs2)
    else (add, delete, [])
  let (add, delete, frozen) :=
    if env.message.frozen then (false, false, true)
    else (add, delete, false)
  let (add, delete, forced) :=
    if env.starboard.id ∈ env.message.forced then (true, false, true)
    else (add, delete, false)
  (⟨add, delete, forced, frozen⟩, regexLogs)

/-- A row of the `starboard_messages` table for this (orig message,
starboard) pair: its primary key is the mirror message's id, and it
carries the persisted `points`. -/
structure LinkRow where
  id : Nat
  points : Int
  deriving Repr, DecidableEq

/-- The remote mirror message in the starboard channel: its id, its plain
text content, its embed (if any) and the reactions on it. -/
structure Mirror where
  id : Nat
  content : String
  embed : Option String
  reactions : List String
  deriving Repr, DecidableEq

/-- The mutable state one `handle_starboard` call touches: the
`starboard_messages` row for this (orig, starboard) pair — at most one by
the primary key / `fetchrow` discipline — and the remote mirror. -/
structure RState where
  link : Option LinkRow
  mirror : Option Mirror
  deriving Repr, DecidableEq

/-- A remote Discord call performed during one reconciliation pass. -/
inductive RemoteOp where
  | send (id : Nat)
  | edit (id : Nat)
  | del (id : Nat)
  | react (id : Nat) (emoji : String)
  deriving Repr, DecidableEq

/-- `bot.cache.fetch_message` of the mirror message: succeeds exactly when
the remote mirror exists and is the one the link row points to. -/
def fetchMirror (st : RState) (linkId : Nat) : Option Mirror :=
  match st.mirror with
  | some m => if m.id = linkId then some m else none
  | none => none

/-- Lines 363-366: use the cached points of the existing link when the
message is frozen and such a link exists; recompute otherwise. -/
def pointsFor (env : Env) (link : Option LinkRow) : Int :=
  if ¬env.message.frozen = true ∨ link = none then
    (calculate_points env.starboard env.message env.reactions
      env.reactionUsers : Int)
  else (link.getD ⟨0, 0⟩).points

/-- Lines 367-368: `set_points` persists the computed points onto the
existing link row, if any. -/
def writePoints (st : RState) (p : Int) : RState :=
  { st with link := st.link.map (fun l => { l with points := p }) }

/-- Lines 420-435: when a link row exists, resolve the live mirror through
the cache; if it cannot be resolved, delete the stale row and continue
with no link.  Returns the updated state and the resolved live mirror. -/
def staleCheck (st : RState) : RState × Option Mirror :=
  match st.link with
  | some l =>
    match fetchMirror st l.id with
    | none => ({ st with link := none }, none)
    | some m => (st, some m)
  | none => (st, none)

/-- The plain text line of the mirror:
`**{display_emoji} {points} | <#{channel_id}>**` plus the lock and
snowflake markers. -/
def plain_text (env : Env) (points : Int) (forced frozen : Bool) : String :=
  let de := env.starboard.display_emoji
  let pts := toString points
  let ch := toString env.message.channel_id
  s!"**{de} {pts} | <#{ch}>**" ++
    (if forced then " 🔒" else "") ++ (if frozen then " ❄️" else "")

/-- The `guild_log` line dispatched when sending the mirror hits
`discord.Forbidden`. -/
def sendPermLog (env : Env) : String :=
  let ch := toString env.starboard.id
  s!"I tried to send a starboard message to <#{ch}>, but I'm missing " ++
    "the proper permissions. Please make sure I have the " ++
    "`Send Messages` permission."

/-- The `guild_log` line dispatched when an autoreact hits
`discord.Forbidden`. -/
def autoreactPermLog (env : Env) : String :=
  let ch := toString env.starboard.id
  "I tried to autoreact to a message on the starboard, but I'm missing " ++
    "the proper permissions. If you don't want me to autoreact to " ++
    "messages, set the AutoReact setting to False with " ++
    s!"`sb!s cs <#{ch}> --autoReact False`"

/-- Lines 488-511: after a successful send, when `autoreact` is on, react
with each configured emoji token (custom-emoji tokens are resolved to
guild emojis at display level); a permission failure is caught and logged
per emoji without aborting the rest.  Returns the reactions that land on
the mirror, the remote calls and the logs. -/
def autoreactResult (env : Env) (mid : Nat) :
    List String × List RemoteOp × List String :=
  if env.starboard.autoreact = true then
    if env.canReact then
      (env.starboard.star_emojis,
       env.starboard.star_emojis.map (fun e => RemoteOp.react mid e), [])
    else
      ([], [], env.starboard.star_emojis.map (fun _ => autoreactPermLog env))
  else ([], [], [])

/-- Lines 437-526: the transition of the mirror and the store given the
decision, the resolved live mirror and the computed points. -/
def transition (env : Env) (p : Int) (d : Decision) (st : RState)
    (live : Option Mirror) : RState × List RemoteOp × List String :=
  match live, d.delete with
  | some m, true =>
    -- delete the store row first, then the remote message (NotFound on
    -- the remote delete is swallowed)
    ({ link := st.link.filter (fun l => l.id != m.id),
       mirror := st.mirror.filter (fun mm => mm.id != m.id) },
     [RemoteOp.del m.id], [])
  | none, true => (st, [], [])
  | liveM, false =>
    let pt := plain_text env p d.forced d.frozen
    match liveM with
    | none =>
      if d.add = true ∧ env.sourcePresent = true then
        if env.canSend then
          let ar := autoreactResult env env.nextId
          ({ link := some { id := env.nextId, points := p },
             mirror := some { id := env.nextId, content := pt,
                              embed := some env.renderedEmbed,
                              reactions := ar.1 } },
           RemoteOp.send env.nextId :: ar.2.1, ar.2.2)
        else (st, [], [sendPermLog env])
      else (st, [], [])
    | some m =>
      if env.sourcePresent then
        let m' := if env.starboard.link_edits then
            { m with content := pt, embed := some env.renderedEmbed }
          else { m with content := pt }
        ({ st with mirror := some m' }, [RemoteOp.edit m.id], [])
      else
        ({ st with mirror := some { m with content := pt } },
         [RemoteOp.edit m.id], [])

/-- `handle_starboard(bot, sql_starboard, sql_message, sql_author)` as a
pure transition on the per-(message, starboard) state, also returning the
remote calls made and the `guild_log` lines dispatched during the call. -/
def handle_starboard (env : Env) (st : RState) :
    RState × List RemoteOp × List String :=
  let p := pointsFor env st.link
  let st1 := writePoints st p
  let dl := evalDecision env p
  let sl := staleCheck st1
  let out := transition env p dl.1 sl.1 sl.2
  (out.1, out.2.1, dl.2 ++ out.2.2)

/-- The embed description `handle_trashed_message` writes onto the mirror
of a trashed message. -/
def trashedEmbedText (msg : MessageRow) : String :=
  let ch := toString msg.channel_id
  let mid := toString msg.id
  "This message was trashed by a moderator. To untrash it, run " ++
    s!"sb!untrash {ch}-{mid}"

/-- `handle_trashed_message(bot, sql_starboard, sql_message, sql_author)`:
if a link row exists and its mirror resolves, edit the mirror's embed to
the trashed notice (content untouched); otherwise do nothing.  `NotFound`
on the edit is swallowed. -/
def handle_trashed_message (env : Env) (st : RState) :
    RState × List RemoteOp × List String :=
  match st.link with
  | none => (st, [], [])
  | some l =>
    match fetchMirror st l.id with
    | none => (st, [], [])
    | some m =>
      ({ st with
           mirror := some { m with embed := some (trashedEmbedText env.message) } },
       [RemoteOp.edit m.id], [])

/-- `update_message(bot, message_id, guild_id)`, restricted to one
starboard of the guild: dispatch to `handle_starboard` when the message is
not trashed, to `handle_trashed_message` when it is. -/
def update_message (env : Env) (st : RState) :
    RState × List RemoteOp × List String :=
  if ¬env.message.trashed = true then handle_starboard env st
  else handle_trashed_message env st

/-- Lines 140-142 of `embed_message`: truncate the accumulated content
(as a sequence of characters) when it exceeds 2048. -/
def truncate_content (content : List Char) : List Char :=
  if content.length > 2048 then
    let to_remove := (content ++ " ...".toList).length - 2048
    content.take (content.length - to_remove)
  else content

/-- A concrete starboard configuration for the scenario checks:
`required = 3`, `star_emojis = ["⭐"]`, `self_star = false`, every other
guard disabled. -/
def baseStarboard : StarboardRow :=
  { id := 1, guild_id := 1, required := 3, required_remove := 0,
    self_star := false, allow_bots := true, allow_nsfw := true,
    link_edits := true, link_deletes := false, star_emojis := ["⭐"],
    display_emoji := "⭐", regex := "", exclude_regex := "",
    autoreact := false }

/-- A concrete source message (authored by user 7) for the scenario
checks. -/
def baseMessage : MessageRow :=
  { id := 10, guild_id := 1, channel_id := 5, author_id := 7,
    is_nsfw := false, forced := [], trashed := false, frozen := false }

/-- A concrete environment for the scenario checks: source message
resolvable, all permissions granted, both regex outcomes benign. -/
def baseEnv : Env :=
  { starboard := baseStarboard, message := baseMessage,
    author := { is_bot := false },
    reactions := [⟨1, "⭐"⟩],
    reactionUsers := [⟨1, 7⟩, ⟨1, 21⟩, ⟨1, 22⟩, ⟨1, 23⟩],
    sourcePresent := true, sourceJump := "jump",
    regexOutcome := .nomatch, excludeRegexOutcome := .nomatch,
    canSend := true, canReact := true, renderedEmbed := "embed",
    nextId := 99 }

/-- Concrete degenerate-threshold configuration: `required = 0` and
`required_remove = 0`, so any score satisfies both thresholds at once. -/
def cEnvTie : Env :=
  { baseEnv with
    starboard := { baseStarboard with required := 0, required_remove := 0 } }

/-- Concrete starboard with both regex filters configured. -/
def cTimeoutStarboard : StarboardRow :=
  { baseStarboard with required := 0, regex := "p", exclude_regex := "q" }

/-- Concrete environment in which both regex matches time out. -/
def cEnvTimeout : Env :=
  { baseEnv with
    starboard := cTimeoutStarboard,
    regexOutcome := .timeout, excludeRegexOutcome := .timeout }

/-- Concrete environment whose message is trashed. -/
def cEnvTrashed : Env :=
  { baseEnv with message := { baseMessage with trashed := true } }

/-- Concrete environment whose message is both forced onto starboard 1 and
frozen. -/
def cEnvForcedFrozen : Env :=
  { baseEnv with
    message := { baseMessage with forced := [1], frozen := true } }

/-- Concrete environment whose message is frozen. -/
def cEnvFrozen : Env :=
  { baseEnv with message := { baseMessage with frozen := true } }

/-- Concrete state with an existing link row (mirror id 50, cached points
3) and the matching remote mirror. -/
def stLinked : RState :=
  { link := some ⟨50, 3⟩, mirror := some ⟨50, "c", some "e", []⟩ }

/-- Concrete environment in which the bot lacks the Send Messages
permission on the starboard channel. -/
def cEnvNoSend : Env := { baseEnv with canSend := false }

/-- Concrete state with a link row whose remote mirror is gone
(out-of-band deletion). -/
def stStale : RState := { link := some ⟨50, 3⟩, mirror := none }

/-! ## Helper lemmas -/

lemma filter_cons_of_pos {l : List ReactionUserRow} {r : ReactionUserRow}
    (sb : StarboardRow) (a : Nat) (rs : List ReactionRow)
    (hq : qualifies sb a rs r) :
    List.filter (fun x => decide (qualifies sb a rs x)) (r :: l) =
      r :: List.filter (fun x => decide (qualifies sb a rs x)) l := by
  simp [List.filter_cons, hq]

lemma filter_cons_of_neg {l : List ReactionUserRow} {r : ReactionUserRow}
    (sb : StarboardRow) (a : Nat) (rs : List ReactionRow)
    (hq : ¬qualifies sb a rs r) :
    List.filter (fun x => decide (qualifies sb a rs x)) (r :: l) =
      List.filter (fun x => decide (qualifies sb a rs x)) l := by
  simp [List.filter_cons, hq]

lemma calc_fold_invariant (sb : StarboardRow) (a : Nat) (rs : List ReactionRow)
    (l : List ReactionUserRow) :
    ∀ (used : List Nat), used.Nodup →
      (l.foldl (calcStep sb a rs) (used, used.length)).2 =
        (used.toFinset ∪
          ((l.filter (fun r => decide (qualifies sb a rs r))).map
            (fun r => r.user_id)).toFinset).card := by
  induction l with
  | nil =>
    intro used hnd
    simp [List.toFinset_card_of_nodup hnd]
  | cons r rest ih =>
    intro used hnd
    by_cases hmem : r.user_id ∈ used
    · by_cases hq : qualifies sb a rs r
      · simp only [List.foldl_cons, calcStep, if_pos hmem]
        rw [ih used hnd, filter_cons_of_pos sb a rs hq]
        congr 1
        simp only [List.map_cons, List.toFinset_cons]
        rw [Finset.union_insert, Finset.insert_eq_self.mpr]
        exact Finset.mem_union_left _ (List.mem_toFinset.mpr hmem)
      · simp only [List.foldl_cons, calcStep, if_pos hmem]
        rw [ih used hnd, filter_cons_of_neg sb a rs hq]
    · by_cases hq : qualifies sb a rs r
      · have hq1 : emojiOf rs r.reaction_id ∈ sb.star_emojis := hq.1
        have hq2 : ¬(sb.self_star = false ∧ r.user_id = a) := hq.2
        have hnd' : (r.user_id :: used).Nodup := List.nodup_cons.mpr ⟨hmem, hnd⟩
        simp only [List.foldl_cons, calcStep, if_neg hmem,
          if_neg (not_not_intro hq1), if_neg hq2]
        have h2 := ih (r.user_id :: used) hnd'
        simp only [List.length_cons] at h2
        rw [h2, filter_cons_of_pos sb a rs hq]
        congr 1
        simp only [List.map_cons, List.toFinset_cons]
        rw [Finset.union_insert, Finset.insert_union]
      · by_cases he : emojiOf rs r.reaction_id ∈ sb.star_emojis
        · have hb : sb.self_star = false ∧ r.user_id = a := by
            by_contra hb
            exact hq ⟨he, hb⟩
          simp only [List.foldl_cons, calcStep, if_neg hmem,
            if_neg (not_not_intro he), if_pos hb]
          rw [ih used hnd, filter_cons_of_neg sb a rs hq]
        · simp only [List.foldl_cons, calcStep, if_neg hmem, if_pos he]
          rw [ih used hnd, filter_cons_of_neg sb a rs hq]

lemma calculate_points_eq_card (sb : StarboardRow) (msg : MessageRow)
    (rs : List ReactionRow) (rus : List ReactionUserRow) :
    calculate_points sb msg rs rus =
      (qualifyingUsers sb msg.author_id rs rus).card := by
  have h := calc_fold_invariant sb msg.author_id rs rus [] List.nodup_nil
  simp only [List.length_nil] at h
  unfold calculate_points qualifyingUsers
  rw [h]
  simp

lemma evalDecision_forced (env : Env) (p : Int)
    (h : env.starboard.id ∈ env.message.forced) :
    (evalDecision env p).1.add = true ∧ (evalDecision env p).1.delete = false ∧
      (evalDecision env p).1.forced = true := by
  unfold evalDecision
  simp [h]

lemma evalDecision_frozen_not_forced (env : Env) (p : Int)
    (hf : env.message.frozen = true) (hm : env.starboard.id ∉ env.message.forced) :
    (evalDecision env p).1.add = false ∧ (evalDecision env p).1.delete = false := by
  unfold evalDecision
  simp [hf, hm]

lemma evalDecision_delete_of_frozen (env : Env) (p : Int)
    (hf : env.message.frozen = true) :
    (evalDecision env p).1.delete = false := by
  unfold evalDecision
  by_cases hm : env.starboard.id ∈ env.message.forced <;> simp [hf, hm]

lemma pointsFor_of_not_frozen (env : Env) (link : Option LinkRow)
    (hf : env.message.frozen = false) :
    pointsFor env link =
      (calculate_points env.starboard env.message env.reactions
        env.reactionUsers : Int) := by
  simp [pointsFor, hf]

lemma pointsFor_none (env : Env) :
    pointsFor env none =
      (calculate_points env.starboard env.message env.reactions
        env.reactionUsers : Int) := by
  simp [pointsFor]

lemma pointsFor_frozen_some (env : Env) (l : LinkRow)
    (hf : env.message.frozen = true) :
    pointsFor env (some l) = l.points := by
  simp [pointsFor, hf]

lemma fetchMirror_eq_some {st : RState} {lid : Nat} {m : Mirror}
    (h : fetchMirror st lid = some m) : st.mirror = some m ∧ m.id = lid := by
  unfold fetchMirror at h
  cases hm : st.mirror with
  | none => rw [hm] at h; simp at h
  | some mm =>
    rw [hm] at h
    by_cases hid : mm.id = lid
    · simp only [hid, if_true, Option.some.injEq] at h
      subst h
      exact ⟨rfl, hid⟩
    · simp [hid] at h

lemma mirror_update_content_self (M : Mirror) :
    ({ M with content := M.content } : Mirror) = M := rfl

lemma transition_none_noop (env : Env) (p : Int) (d : Decision) (st : RState)
    (h : ¬(d.delete = false ∧ d.add = true ∧ env.sourcePresent = true ∧
           env.canSend = true)) :
    (transition env p d st none).1 = st := by
  cases hdel : d.delete with
  | true => simp [transition, hdel]
  | false =>
    cases hadd : d.add with
    | false => simp [transition, hdel, hadd]
    | true =>
      cases hsp : env.sourcePresent with
      | false => simp [transition, hdel, hadd, hsp]
      | true =>
        cases hcs : env.canSend with
        | false => simp [transition, hdel, hadd, hsp, hcs]
        | true => exact absurd ⟨hdel, hadd, hsp, hcs⟩ h

lemma transition_none_create (env : Env) (p : Int) (d : Decision) (st : RState)
    (hdel : d.delete = false) (hadd : d.add = true)
    (hsp : env.sourcePresent = true) (hcs : env.canSend = true) :
    (transition env p d st none).1 =
      ⟨some ⟨env.nextId, p⟩,
       some ⟨env.nextId, plain_text env p d.forced d.frozen,
             some env.renderedEmbed, (autoreactResult env env.nextId).1⟩⟩ := by
  simp [transition, hdel, hadd, hsp, hcs]

lemma transition_some_edit (env : Env) (p : Int) (d : Decision) (st : RState)
    (M : Mirror) (hdel : d.delete = false) :
    (transition env p d st (some M)).1 =
      { st with mirror := some (
          if env.sourcePresent && env.starboard.link_edits then
            { M with content := plain_text env p d.forced d.frozen,
                     embed := some env.renderedEmbed }
          else { M with content := plain_text env p d.forced d.frozen }) } := by
  cases hsp : env.sourcePresent with
  | false => simp [transition, hdel, hsp]
  | true =>
    cases hle : env.starboard.link_edits with
    | false => simp [transition, hdel, hsp, hle]
    | true => simp [transition, hdel, hsp, hle]

lemma handle_none_noop (env : Env) (m : Option Mirror)
    (h : ¬((evalDecision env (pointsFor env none)).1.delete = false ∧
           (evalDecision env (pointsFor env none)).1.add = true ∧
           env.sourcePresent = true ∧ env.canSend = true)) :
    (handle_starboard env ⟨none, m⟩).1 = ⟨none, m⟩ := by
  show (transition env (pointsFor env none)
      (evalDecision env (pointsFor env none)).1
      (staleCheck (writePoints ⟨none, m⟩ (pointsFor env none))).1
      (staleCheck (writePoints ⟨none, m⟩ (pointsFor env none))).2).1 = _
  have hw : writePoints (⟨none, m⟩ : RState) (pointsFor env none) =
      ⟨none, m⟩ := rfl
  have hsc : staleCheck (⟨none, m⟩ : RState) = (⟨none, m⟩, none) := rfl
  rw [hw, hsc]
  exact transition_none_noop env _ _ _ h

lemma handle_none_create (env : Env) (m : Option Mirror)
    (hdel : (evalDecision env (pointsFor env none)).1.delete = false)
    (hadd : (evalDecision env (pointsFor env none)).1.add = true)
    (hsp : env.sourcePresent = true) (hcs : env.canSend = true) :
    (handle_starboard env ⟨none, m⟩).1 =
      ⟨some ⟨env.nextId, pointsFor env none⟩,
       some ⟨env.nextId,
             plain_text env (pointsFor env none)
               (evalDecision env (pointsFor env none)).1.forced
               (evalDecision env (pointsFor env none)).1.frozen,
             some env.renderedEmbed, (autoreactResult env env.nextId).1⟩⟩ := by
  show (transition env (pointsFor env none)
      (evalDecision env (pointsFor env none)).1
      (staleCheck (writePoints ⟨none, m⟩ (pointsFor env none))).1
      (staleCheck (writePoints ⟨none, m⟩ (pointsFor env none))).2).1 = _
  have hw : writePoints (⟨none, m⟩ : RState) (pointsFor env none) =
      ⟨none, m⟩ := rfl
  have hsc : staleCheck (⟨none, m⟩ : RState) = (⟨none, m⟩, none) := rfl
  rw [hw, hsc]
  exact transition_none_create env _ _ _ hdel hadd hsp hcs

lemma pointsFor_self (env : Env) (nid : Nat) (P : Int)
    (hP : env.message.frozen = false →
      P = (calculate_points env.starboard env.message env.reactions
        env.reactionUsers : Int)) :
    pointsFor env (some ⟨nid, P⟩) = P := by
  cases hf : env.message.frozen with
  | true => exact pointsFor_frozen_some env _ hf
  | false => rw [pointsFor_of_not_frozen env _ hf, hP hf]

lemma handle_fixed (env : Env) (nid : Nat) (P : Int) (M : Mirror)
    (hp : pointsFor env (some ⟨nid, P⟩) = P)
    (hdel : (evalDecision env P).1.delete = false)
    (hid : M.id = nid)
    (hcontent : M.content =
      plain_text env P (evalDecision env P).1.forced
        (evalDecision env P).1.frozen)
    (hembed : env.sourcePresent = true → env.starboard.link_edits = true →
      M.embed = some env.renderedEmbed) :
    (handle_starboard env ⟨some ⟨nid, P⟩, some M⟩).1 =
      ⟨some ⟨nid, P⟩, some M⟩ := by
  show (transition env (pointsFor env (some ⟨nid, P⟩))
      (evalDecision env (pointsFor env (some ⟨nid, P⟩))).1
      (staleCheck (writePoints ⟨some ⟨nid, P⟩, some M⟩
        (pointsFor env (some ⟨nid, P⟩)))).1
      (staleCheck (writePoints ⟨some ⟨nid, P⟩, some M⟩
        (pointsFor env (some ⟨nid, P⟩)))).2).1 = _
  rw [hp]
  have hw : writePoints (⟨some ⟨nid, P⟩, some M⟩ : RState) P =
      ⟨some ⟨nid, P⟩, some M⟩ := rfl
  have hsc : staleCheck (⟨some ⟨nid, P⟩, some M⟩ : RState) =
      (⟨some ⟨nid, P⟩, some M⟩, some M) := by
    unfold staleCheck fetchMirror
    simp [hid]
  rw [hw, hsc, transition_some_edit env P _ _ M hdel]
  have hMc : ({ M with
      content := plain_text env P (evalDecision env P).1.forced
        (evalDecision env P).1.frozen } : Mirror) = M := by
    rw [← hcontent]
  cases hsp : env.sourcePresent with
  | false =>
    simp [hsp, hMc]
  | true =>
    cases hle : env.starboard.link_edits with
    | false =>
      simp [hsp, hle, hMc]
    | true =>
      have hMce : ({ M with
          content := plain_text env P (evalDecision env P).1.forced
            (evalDecision env P).1.frozen,
          embed := some env.renderedEmbed } : Mirror) = M := by
        rw [← hcontent, ← hembed hsp hle]
      simp [hsp, hle, hMce]

lemma staleCheck_some_none (st : RState) (l : LinkRow) (hl : st.link = some l)
    (hm : fetchMirror st l.id = none) :
    staleCheck st = ({ st with link := none }, none) := by
  unfold staleCheck
  rw [hl]
  simp only [hm]

lemma staleCheck_some_some (st : RState) (l : LinkRow) (M : Mirror)
    (hl : st.link = some l) (hm : fetchMirror st l.id = some M) :
    staleCheck st = (st, some M) := by
  unfold staleCheck
  rw [hl]
  simp only [hm]

lemma transition_some_delete (env : Env) (p : Int) (d : Decision)
    (st : RState) (M : Mirror) (hdel : d.delete = true) :
    (transition env p d st (some M)).1 =
      ⟨st.link.filter (fun l => l.id != M.id),
       st.mirror.filter (fun mm => mm.id != M.id)⟩ := by
  simp [transition, hdel]

lemma transition_none_ops_no_del (env : Env) (p : Int) (d : Decision)
    (st : RState) : ∀ i, RemoteOp.del i ∉ (transition env p d st none).2.1 := by
  intro i
  cases hdel : d.delete with
  | true => simp [transition, hdel]
  | false =>
    by_cases hc : d.add = true ∧ env.sourcePresent = true
    · by_cases hcs : env.canSend = true
      · by_cases har : env.starboard.autoreact = true
        · by_cases hcr : env.canReact = true
          · simp [transition, hdel, hc, hcs, autoreactResult, har, hcr]
          · simp [transition, hdel, hc, hcs, autoreactResult, har, hcr]
        · simp [transition, hdel, hc, hcs, autoreactResult, har]
      · simp [transition, hdel, hc, hcs]
    · simp [transition, hdel, hc]

/-! ## Claim theorems -/

/-- C1 counterexample: at the degenerate configuration
`required = required_remove = 0` with `points = 0`, both baseline
thresholds hold and no later rule fires, yet the decision is `add = true`,
`delete = false` — the opposite of the claimed tie-break towards
removal. -/
theorem C1_counterexample :
    ((0:Int) ≥ cEnvTie.starboard.required ∧
     (0:Int) ≤ cEnvTie.starboard.required_remove ∧
     (!cEnvTie.starboard.allow_bots && cEnvTie.author.is_bot) = false ∧
     (cEnvTie.starboard.link_deletes && !cEnvTie.sourcePresent) = false ∧
     (cEnvTie.message.is_nsfw && !cEnvTie.starboard.allow_nsfw) = false ∧
     cEnvTie.starboard.regex = "" ∧ cEnvTie.starboard.exclude_regex = "" ∧
     cEnvTie.message.frozen = false ∧
     cEnvTie.starboard.id ∉ cEnvTie.message.forced) ∧
    ((evalDecision cEnvTie 0).1.add = true ∧
     (evalDecision cEnvTie 0).1.delete = false) := by
  decide

/-- C1 (amended): when `points >= required` and `points <= required_remove`
both hold and no later rule (bots, link_deletes, NSFW, regex, frozen,
forced) fires, the baseline rule resolves the tie in favor of ADDITION:
the decision is `add = true`, `delete = false`, because the removal
threshold sits in the `elif` branch and is never consulted once the add
threshold passes. -/
theorem C1_amended (env : Env) (p : Int)
    (h1 : p ≥ env.starboard.required)
    (_h2 : p ≤ env.starboard.required_remove)
    (h3 : (!env.starboard.allow_bots && env.author.is_bot) = false)
    (h4 : (env.starboard.link_deletes && !env.sourcePresent) = false)
    (h5 : (env.message.is_nsfw && !env.starboard.allow_nsfw) = false)
    (hre : env.sourcePresent = true → env.starboard.regex ≠ "" →
      (try_regex env.starboard.regex env.sourceJump env.regexOutcome).1 ≠
        some false)
    (hex : env.sourcePresent = true → env.starboard.exclude_regex ≠ "" →
      (try_regex env.starboard.exclude_regex env.sourceJump
        env.excludeRegexOutcome).1 ≠ some true)
    (h8 : env.message.frozen = false)
    (h9 : env.starboard.id ∉ env.message.forced) :
    (evalDecision env p).1.add = true ∧
      (evalDecision env p).1.delete = false := by
  unfold evalDecision
  cases hsp : env.sourcePresent with
  | false =>
    have hld : env.starboard.link_deletes = false := by
      rw [hsp] at h4
      simpa using h4
    simp [h1, h3, h5, h8, h9, hsp, hld]
  | true =>
    by_cases hr : env.starboard.regex = ""
    · by_cases hx : env.starboard.exclude_regex = ""
      · simp [h1, h3, h4, h5, h8, h9, hsp, hr, hx]
      · have hx' := hex hsp hx
        simp [h1, h3, h4, h5, h8, h9, hsp, hr, hx, hx']
    · have hr' := hre hsp hr
      by_cases hx : env.starboard.exclude_regex = ""
      · simp [h1, h3, h4, h5, h8, h9, hsp, hr, hr', hx]
      · have hx' := hex hsp hx
        simp [h1, h3, h4, h5, h8, h9, hsp, hr, hr', hx, hx']

/-- C1 witness: the amended tie-break theorem applied at the concrete
degenerate configuration. -/
theorem C1_witness :
    (evalDecision cEnvTie 0).1.add = true ∧
      (evalDecision cEnvTie 0).1.delete = false :=
  C1_amended cEnvTie 0 (by decide) (by decide) (by decide) (by decide)
    (by decide) (fun _ h => absurd rfl h) (fun _ h => absurd rfl h)
    (by decide) (by decide)

/-- C2 counterexample: with both `regex` and `exclude_regex` configured
and both matches timing out, the decision keeps the previously computed
`add = true`, `delete = false` — the timeout does NOT force
rejection, contradicting the claimed fail-closed treatment. -/
theorem C2_counterexample :
    (cEnvTimeout.starboard.regex ≠ "" ∧ cEnvTimeout.regexOutcome = .timeout ∧
     cEnvTimeout.starboard.exclude_regex ≠ "" ∧
     cEnvTimeout.excludeRegexOutcome = .timeout ∧
     cEnvTimeout.sourcePresent = true) ∧
    ((evalDecision cEnvTimeout 0).1.add = true ∧
     (evalDecision cEnvTimeout 0).1.delete = false) := by
  decide

/-- C2 (amended): a regex-guard timeout is fail-OPEN: the decision is
exactly the one produced when `regex` matches and `exclude_regex` does not
match (neither rejection rule fires), and the operator-facing log
notification naming the pattern and the message is still emitted for each
timed-out pattern. -/
theorem C2_amended (env : Env) (p : Int)
    (hsp : env.sourcePresent = true)
    (hro : env.regexOutcome = .timeout)
    (heo : env.excludeRegexOutcome = .timeout) :
    (evalDecision env p).1 =
      (evalDecision { env with regexOutcome := .matched,
                               excludeRegexOutcome := .nomatch } p).1 ∧
    (evalDecision env p).2 =
      (if env.starboard.regex ≠ "" then
        [timeoutLog env.starboard.regex env.sourceJump] else []) ++
      (if env.starboard.exclude_regex ≠ "" then
        [timeoutLog env.starboard.exclude_regex env.sourceJump] else []) := by
  unfold evalDecision try_regex
  by_cases hr : env.starboard.regex = "" <;>
    by_cases hx : env.starboard.exclude_regex = "" <;>
      simp [hsp, hro, heo, hr, hx]

/-- C2 witness: the amended timeout theorem applied at the concrete
double-timeout environment. -/
theorem C2_witness :
    (evalDecision cEnvTimeout 0).1 =
      (evalDecision { cEnvTimeout with
                      regexOutcome := .matched,
                      excludeRegexOutcome := .nomatch } 0).1 ∧
    (evalDecision cEnvTimeout 0).2 =
      (if cEnvTimeout.starboard.regex ≠ "" then
        [timeoutLog cEnvTimeout.starboard.regex cEnvTimeout.sourceJump]
       else []) ++
      (if cEnvTimeout.starboard.exclude_regex ≠ "" then
        [timeoutLog cEnvTimeout.starboard.exclude_regex cEnvTimeout.sourceJump]
       else []) :=
  C2_amended cEnvTimeout 0 rfl rfl rfl

/-- C3 counterexample: for a trashed message with an existing link and a
resolvable mirror, `update_message` keeps the `starboard_messages` row and
keeps the remote mirror (it only edits it) — the claimed destruction of
the link and deletion of the mirror does not happen. -/
theorem C3_counterexample :
    (cEnvTrashed.message.trashed = true ∧
     stLinked.link = some ⟨50, 3⟩) ∧
    ((update_message cEnvTrashed stLinked).1.link = some ⟨50, 3⟩ ∧
     (update_message cEnvTrashed stLinked).1.mirror ≠ none) := by
  decide

/-- C3 (amended): for every trashed message with an existing link whose
mirror resolves, the reconciliation pass (`update_message`) RETAINS the
link row and the remote mirror, editing the mirror's embed to the
"Trashed Message" notice; nothing is deleted, locally or remotely. -/
theorem C3_amended (env : Env) (st : RState) (l : LinkRow) (m : Mirror)
    (ht : env.message.trashed = true)
    (hl : st.link = some l)
    (hm : fetchMirror st l.id = some m) :
    update_message env st =
      ({ st with
         mirror := some { m with
                          embed := some (trashedEmbedText env.message) } },
       [RemoteOp.edit m.id], []) := by
  unfold update_message
  rw [if_neg (not_not_intro ht)]
  unfold handle_trashed_message
  rw [hl]
  simp only [hm]

/-- C3 witness: the amended trashed-message theorem applied at the
concrete trashed environment and linked state. -/
theorem C3_witness :
    update_message cEnvTrashed stLinked =
      ({ stLinked with
         mirror := some { id := 50, content := "c",
                          embed := some (trashedEmbedText cEnvTrashed.message),
                          reactions := [] } },
       [RemoteOp.edit 50], []) :=
  C3_amended cEnvTrashed stLinked ⟨50, 3⟩ ⟨50, "c", some "e", []⟩
    rfl rfl rfl

/-- C4: `calculate_points` returns exactly the number of distinct users
holding at least one reaction whose emoji token is in the starboard's
`star_emojis` (excluding the message author when `self_star` is false);
each user contributes at most one point however many qualifying emoji
variants they used, the result is a non-negative integer (a `Nat`), and in
the concrete scenario — `required = 3`, `star_emojis = {⭐}`,
`self_star = false`, ⭐ reactions from the author (user 7) and users 21,
22, 23 — the result is 3. -/
theorem C4_points_are_distinct_qualifying_users :
    (∀ (sb : StarboardRow) (msg : MessageRow) (rs : List ReactionRow)
        (rus : List ReactionUserRow),
      calculate_points sb msg rs rus =
        (qualifyingUsers sb msg.author_id rs rus).card) ∧
    calculate_points baseStarboard baseMessage [⟨1, "⭐"⟩]
      [⟨1, 7⟩, ⟨1, 21⟩, ⟨1, 22⟩, ⟨1, 23⟩] = 3 :=
  ⟨calculate_points_eq_card, by decide⟩

/-- C5: whenever the starboard's id is in `message.forced`, the decision
is `add = true`, `delete = false`, `forced = true` for every points value
and every state of the earlier rules (including frozen): the forced rule
is applied last and overrides everything before it. -/
theorem C5_forced_overrides_all (env : Env) (p : Int)
    (h : env.starboard.id ∈ env.message.forced) :
    (evalDecision env p).1.add = true ∧
      (evalDecision env p).1.delete = false ∧
      (evalDecision env p).1.forced = true :=
  evalDecision_forced env p h

/-- C5 witness: the forced-override theorem applied at a concrete
environment whose message is simultaneously forced and frozen. -/
theorem C5_witness :
    (evalDecision cEnvForcedFrozen 0).1.add = true ∧
      (evalDecision cEnvForcedFrozen 0).1.delete = false ∧
      (evalDecision cEnvForcedFrozen 0).1.forced = true :=
  C5_forced_overrides_all cEnvForcedFrozen 0 (by decide)

/-- C6: the points value used during reconciliation is the cached points
stored on the existing link exactly when the message is frozen and such a
link exists; otherwise (not frozen, or no prior link) `calculate_points`
is invoked to recompute the score. -/
theorem C6_frozen_uses_cached_points (env : Env) (l : LinkRow) :
    (env.message.frozen = true → pointsFor env (some l) = l.points) ∧
    (env.message.frozen = false →
      pointsFor env (some l) =
        (calculate_points env.starboard env.message env.reactions
          env.reactionUsers : Int)) ∧
    pointsFor env none =
      (calculate_points env.starboard env.message env.reactions
        env.reactionUsers : Int) :=
  ⟨fun hf => pointsFor_frozen_some env l hf,
   fun hf => pointsFor_of_not_frozen env (some l) hf,
   pointsFor_none env⟩

/-- C6 witness: the cached-points theorem applied at the concrete frozen
environment (cached value 7 wins) and at the unfrozen base environment
(the calculator's value 3 wins). -/
theorem C6_witness :
    pointsFor cEnvFrozen (some ⟨50, 7⟩) = (7:Int) ∧
      pointsFor baseEnv (some ⟨50, 7⟩) = (3:Int) :=
  ⟨(C6_frozen_uses_cached_points cEnvFrozen ⟨50, 7⟩).1 rfl,
   ((C6_frozen_uses_cached_points baseEnv ⟨50, 7⟩).2.1 rfl).trans (by decide)⟩

/-- C10: the embed description built by `embed_message` is at most 2048
characters: content longer than 2048 characters is cut to exactly 2044
characters, and the truncated result is a plain prefix of the content —
no ellipsis marker is appended. -/
theorem C10_embed_description_bounded (c : List Char) :
    (truncate_content c).length ≤ 2048 ∧
    (c.length > 2048 →
      (truncate_content c).length = 2044 ∧
        truncate_content c = c.take 2044) := by
  by_cases h : c.length > 2048
  · have hfour : (" ...".toList).length = 4 := rfl
    have harg : c.length - ((c ++ " ...".toList).length - 2048) = 2044 := by
      rw [List.length_append, hfour]
      omega
    have hval : truncate_content c = c.take 2044 := by
      unfold truncate_content
      rw [if_pos h]
      show c.take (c.length - ((c ++ " ...".toList).length - 2048)) =
        c.take 2044
      rw [harg]
    rw [hval, List.length_take]
    exact ⟨by omega, fun _ => ⟨by omega, rfl⟩⟩
  · have hval : truncate_content c = c := by
      unfold truncate_content
      rw [if_neg h]
    rw [hval]
    exact ⟨by omega, fun hc => absurd hc h⟩

/-- C10 witness: the truncation theorem applied at a concrete content of
2049 characters. -/
theorem C10_witness :
    (truncate_content (List.replicate 2049 'a')).length = 2044 ∧
      truncate_content (List.replicate 2049 'a') =
        (List.replicate 2049 'a').take 2044 :=
  (C10_embed_description_bounded (List.replicate 2049 'a')).2
    (by rw [List.length_replicate]; omega)

/-- C8: reconciliation is idempotent: for every environment and every
starting state, running `handle_starboard` twice in immediate succession
with no intervening event leaves exactly the state produced by running it
once (the store holds at most one link row per (message, starboard) pair
throughout, as the store is keyed by that pair). -/
theorem C8_reconcile_idempotent (env : Env) (st : RState) :
    (handle_starboard env (handle_starboard env st).1).1 =
      (handle_starboard env st).1 := by
  obtain ⟨slink, smirror⟩ := st
  rcases slink with _ | l
  · by_cases hfire :
        (evalDecision env (pointsFor env none)).1.delete = false ∧
        (evalDecision env (pointsFor env none)).1.add = true ∧
        env.sourcePresent = true ∧ env.canSend = true
    · rw [handle_none_create env smirror hfire.1 hfire.2.1 hfire.2.2.1
        hfire.2.2.2]
      apply handle_fixed
      · apply pointsFor_self
        intro hfro
        rw [pointsFor_none]
      · exact hfire.1
      · rfl
      · rfl
      · intro _ _
        rfl
    · rw [handle_none_noop env smirror hfire]
      exact handle_none_noop env smirror hfire
  · rcases hfm : fetchMirror ⟨some l, smirror⟩ l.id with _ | M
    · -- stale link: the row is dropped, then the pass continues linkless
      have h1 : (handle_starboard env ⟨some l, smirror⟩).1 =
          (transition env (pointsFor env (some l))
            (evalDecision env (pointsFor env (some l))).1
            ⟨none, smirror⟩ none).1 := by
        show (transition env (pointsFor env (some l))
            (evalDecision env (pointsFor env (some l))).1
            (staleCheck (writePoints ⟨some l, smirror⟩
              (pointsFor env (some l)))).1
            (staleCheck (writePoints ⟨some l, smirror⟩
              (pointsFor env (some l)))).2).1 = _
        have hsc : staleCheck (writePoints ⟨some l, smirror⟩
            (pointsFor env (some l))) = (⟨none, smirror⟩, none) :=
          staleCheck_some_none _ _ rfl hfm
        rw [hsc]
      by_cases hfire :
          (evalDecision env (pointsFor env (some l))).1.delete = false ∧
          (evalDecision env (pointsFor env (some l))).1.add = true ∧
          env.sourcePresent = true ∧ env.canSend = true
      · rw [h1, transition_none_create env _ _ _ hfire.1 hfire.2.1
          hfire.2.2.1 hfire.2.2.2]
        apply handle_fixed
        · apply pointsFor_self
          intro hfro
          rw [pointsFor_of_not_frozen env _ hfro]
        · exact hfire.1
        · rfl
        · rfl
        · intro _ _
          rfl
      · rw [h1, transition_none_noop env _ _ _ hfire]
        apply handle_none_noop
        intro hfire0
        -- translate the second-pass fire condition back to the first pass
        by_cases hfro : env.message.frozen = true
        · by_cases hforc : env.starboard.id ∈ env.message.forced
          · exact hfire ⟨evalDecision_delete_of_frozen env _ hfro,
              (evalDecision_forced env _ hforc).1, hfire0.2.2⟩
          · exact absurd hfire0.2.1
              (by rw [(evalDecision_frozen_not_forced env _ hfro hforc).1]
                  exact fun hc => by simp at hc)
        · have hfro' : env.message.frozen = false := by
            cases hf : env.message.frozen
            · rfl
            · exact absurd hf hfro
          have hPeq : pointsFor env none = pointsFor env (some l) := by
            rw [pointsFor_none, pointsFor_of_not_frozen env _ hfro']
          rw [hPeq] at hfire0
          exact hfire hfire0
    · -- live mirror resolved
      have hinv := fetchMirror_eq_some hfm
      have hmir : smirror = some M := hinv.1
      have hMid : M.id = l.id := hinv.2
      have hsc : staleCheck (writePoints ⟨some l, smirror⟩
          (pointsFor env (some l))) =
          (⟨some { l with points := pointsFor env (some l) }, smirror⟩,
           some M) :=
        staleCheck_some_some _ _ _ rfl hfm
      cases hdel : (evalDecision env (pointsFor env (some l))).1.delete with
      | true =>
        have h1 : (handle_starboard env ⟨some l, smirror⟩).1 =
            (⟨none, none⟩ : RState) := by
          show (transition env (pointsFor env (some l))
              (evalDecision env (pointsFor env (some l))).1
              (staleCheck (writePoints ⟨some l, smirror⟩
                (pointsFor env (some l)))).1
              (staleCheck (writePoints ⟨some l, smirror⟩
                (pointsFor env (some l)))).2).1 = _
          rw [hsc, transition_some_delete env _ _ _ M hdel]
          rw [hmir]
          simp [Option.filter, hMid]
        rw [h1]
        apply handle_none_noop
        intro hfire0
        have hfro : env.message.frozen = false := by
          cases hf : env.message.frozen
          · rfl
          · exact absurd
              (evalDecision_delete_of_frozen env (pointsFor env (some l)) hf)
              (by simp [hdel])
        have hPeq : pointsFor env none = pointsFor env (some l) := by
          rw [pointsFor_none, pointsFor_of_not_frozen env _ hfro]
        rw [hPeq, hdel] at hfire0
        exact absurd hfire0.1 (by simp)
      | false =>
        have h1 : (handle_starboard env ⟨some l, smirror⟩).1 =
            (⟨some { l with points := pointsFor env (some l) },
              some (if env.sourcePresent && env.starboard.link_edits then
                { M with
                  content := plain_text env (pointsFor env (some l))
                    (evalDecision env (pointsFor env (some l))).1.forced
                    (evalDecision env (pointsFor env (some l))).1.frozen,
                  embed := some env.renderedEmbed }
              else
                { M with
                  content := plain_text env (pointsFor env (some l))
                    (evalDecision env (pointsFor env (some l))).1.forced
                    (evalDecision env (pointsFor env (some l))).1.frozen })⟩ :
              RState) := by
          show (transition env (pointsFor env (some l))
              (evalDecision env (pointsFor env (some l))).1
              (staleCheck (writePoints ⟨some l, smirror⟩
                (pointsFor env (some l)))).1
              (staleCheck (writePoints ⟨some l, smirror⟩
                (pointsFor env (some l)))).2).1 = _
          rw [hsc, transition_some_edit env _ _ _ M hdel]
        rw [h1]
        apply handle_fixed
        · apply pointsFor_self
          intro hfro
          rw [pointsFor_of_not_frozen env _ hfro]
        · exact hdel
        · split <;> simp [hMid]
        · split <;> rfl
        · intro hsp hle
          simp [hsp, hle]

/-- C7: when a link row exists but the live mirrored message cannot be
resolved, the stale row is deleted without any attempt at a remote delete
and the pass proceeds as if no link existed: if the decision is add (and
not delete), the source resolves and the bot may send, a fresh mirror and
link are created in the same pass; in every other case the pass ends with
no link at all. -/
theorem C7_stale_link_self_heal (env : Env) (st : RState) (l : LinkRow)
    (hl : st.link = some l)
    (hm : fetchMirror st l.id = none) :
    (∀ i, RemoteOp.del i ∉ (handle_starboard env st).2.1) ∧
    (((evalDecision env (pointsFor env st.link)).1.delete = false ∧
      (evalDecision env (pointsFor env st.link)).1.add = true ∧
      env.sourcePresent = true ∧ env.canSend = true) →
      (handle_starboard env st).1.link =
        some ⟨env.nextId, pointsFor env st.link⟩ ∧
      ∃ M, (handle_starboard env st).1.mirror = some M ∧ M.id = env.nextId) ∧
    (¬((evalDecision env (pointsFor env st.link)).1.delete = false ∧
       (evalDecision env (pointsFor env st.link)).1.add = true ∧
       env.sourcePresent = true ∧ env.canSend = true) →
      (handle_starboard env st).1.link = none) := by
  have hl' : (writePoints st (pointsFor env st.link)).link =
      some { l with points := pointsFor env st.link } := by
    unfold writePoints
    rw [hl]
    rfl
  have hsc : staleCheck (writePoints st (pointsFor env st.link)) =
      ({ writePoints st (pointsFor env st.link) with link := none }, none) :=
    staleCheck_some_none _ _ hl' hm
  have hh : handle_starboard env st =
      ((transition env (pointsFor env st.link)
          (evalDecision env (pointsFor env st.link)).1
          { writePoints st (pointsFor env st.link) with link := none }
          none).1,
       (transition env (pointsFor env st.link)
          (evalDecision env (pointsFor env st.link)).1
          { writePoints st (pointsFor env st.link) with link := none }
          none).2.1,
       (evalDecision env (pointsFor env st.link)).2 ++
         (transition env (pointsFor env st.link)
            (evalDecision env (pointsFor env st.link)).1
            { writePoints st (pointsFor env st.link) with link := none }
            none).2.2) := by
    show ((transition env (pointsFor env st.link)
        (evalDecision env (pointsFor env st.link)).1
        (staleCheck (writePoints st (pointsFor env st.link))).1
        (staleCheck (writePoints st (pointsFor env st.link))).2).1,
       (transition env (pointsFor env st.link)
        (evalDecision env (pointsFor env st.link)).1
        (staleCheck (writePoints st (pointsFor env st.link))).1
        (staleCheck (writePoints st (pointsFor env st.link))).2).2.1,
       (evalDecision env (pointsFor env st.link)).2 ++
        (transition env (pointsFor env st.link)
          (evalDecision env (pointsFor env st.link)).1
          (staleCheck (writePoints st (pointsFor env st.link))).1
          (staleCheck (writePoints st (pointsFor env st.link))).2).2.2) = _
    rw [hsc]
  refine ⟨?_, ?_, ?_⟩
  · intro i
    rw [hh]
    exact transition_none_ops_no_del env _ _ _ i
  · intro hfire
    rw [hh]
    rw [transition_none_create env _ _ _ hfire.1 hfire.2.1 hfire.2.2.1
      hfire.2.2.2]
    exact ⟨rfl, _, rfl, rfl⟩
  · intro hfire
    rw [hh]
    rw [transition_none_noop env _ _ _ hfire]

/-- C7 witness: the self-healing theorem applied at the concrete stale
state: the link is recreated with the fresh mirror id 99 and points 3. -/
theorem C7_witness :
    (handle_starboard baseEnv stStale).1.link = some ⟨99, 3⟩ :=
  ((C7_stale_link_self_heal baseEnv stStale ⟨50, 3⟩ rfl rfl).2.1
    ⟨by decide, by decide, rfl, rfl⟩).1

/-- C9: when creating a new mirror (add decided, no live mirror, source
resolvable) and the remote send lacks permission, `handle_starboard`
creates no link and performs no further store writes — the final state is
exactly the pre-action state after the points write and stale-link
cleanup — performs no remote calls, emits the operator notification
naming the missing Send Messages permission, and returns. -/
theorem C9_send_permission_failure (env : Env) (st : RState)
    (hcs : env.canSend = false)
    (hsp : env.sourcePresent = true)
    (hadd : (evalDecision env (pointsFor env st.link)).1.add = true)
    (hdel : (evalDecision env (pointsFor env st.link)).1.delete = false)
    (hlive : (staleCheck (writePoints st (pointsFor env st.link))).2 = none) :
    handle_starboard env st =
      ((staleCheck (writePoints st (pointsFor env st.link))).1, [],
       (evalDecision env (pointsFor env st.link)).2 ++ [sendPermLog env]) := by
  have htr : transition env (pointsFor env st.link)
      (evalDecision env (pointsFor env st.link)).1
      (staleCheck (writePoints st (pointsFor env st.link))).1 none =
      ((staleCheck (writePoints st (pointsFor env st.link))).1, [],
       [sendPermLog env]) := by
    simp [transition, hdel, hadd, hsp, hcs]
  simp only [handle_starboard, hlive, htr]

/-- C9 witness: the permission-failure theorem applied at the concrete
no-permission environment and the empty state. -/
theorem C9_witness :
    handle_starboard cEnvNoSend ⟨none, none⟩ =
      ((⟨none, none⟩ : RState), [], [sendPermLog cEnvNoSend]) :=
  C9_send_permission_failure cEnvNoSend ⟨none, none⟩ rfl rfl (by decide)
    (by decide) rfl

end Starboard2
